import Mathlib

/-!
# Verification of the snarecore-cacrs API client

A shallow embedding, in Lean 4, of the HTTP API client of this repository
(`src/services/apiClient.ts`, the revision that factors error construction
into `createApiError`, together with `authService` and the `AIError` class
from the types module).  Pure functions of the source become Lean functions;
the browser runtime pieces the client drives (fetch responses, the WHATWG
incremental UTF-8 decoder behind `TextDecoderStream`, `XMLHttpRequest`
events, `localStorage`) are embedded as explicit data and state passing.
-/

namespace ApiClient

/-- The error categories of the `AIError` class
(`type: 'api_key' | 'network' | 'generic'`). -/
inductive ErrorType where
  | api_key
  | network
  | generic
deriving DecidableEq, Repr

/-- The `AIError` class: a message plus a category tag. -/
structure AIError where
  message : String
  type : ErrorType
deriving DecidableEq, Repr

/-- The predicate `response.ok` of the Fetch API: status in the range 200..299. -/
def respOk (status : Nat) : Bool :=
  200 ≤ status && status < 300

/-- The result of `await response.json().catch(...)` on an error body,
before the `.catch` fallback is applied: `none` means the body was not
parseable as JSON; `some m` means it parsed, with `m` the value of its
`message` field (`none` when the field is absent). -/
abbrev ErrorBodyParse := Option (Option String)

/-- The value of `errorBody.message` after the `.catch(() => (\x7b message: response.statusText \x7d))`
fallback: an unparseable body is replaced by an object whose `message` is the
status text. -/
def resolveServerMessage (parsed : ErrorBodyParse) (statusText : String) : Option String :=
  match parsed with
  | none => some statusText
  | some m => m

/-- JavaScript `a || b` on an optional string: `undefined` and the empty
string are falsy, so the fallback is used for both. -/
def jsOrElse (s : Option String) (fallback : String) : String :=
  match s with
  | some m => if m = "" then fallback else m
  | none => fallback

/-- The function `createApiError` (apiClient.ts lines 201-237): builds an `AIError` from a
failed response's status, the parse of its error body, and its status text.
The `switch` on the status is embedded as the equivalent sequential test. -/
def createApiError (status : Nat) (parsed : ErrorBodyParse) (statusText : String) : AIError :=
  let serverMessage := resolveServerMessage parsed statusText
  if status = 400 then
    { message := jsOrElse serverMessage "The request was invalid. Please check your input."
      type := ErrorType.generic }
  else if status = 401 then
    { message := jsOrElse serverMessage "Authentication failed. Please log in again."
      type := ErrorType.api_key }
  else if status = 403 then
    { message := jsOrElse serverMessage "You don\x27t have permission to perform this action."
      type := ErrorType.api_key }
  else if status = 404 then
    { message := jsOrElse serverMessage "The requested resource was not found."
      type := ErrorType.network }
  else if status = 500 then
    { message := jsOrElse serverMessage
        "An unexpected error occurred on the server. Please try again later."
      type := ErrorType.network }
  else if status = 502 ∨ status = 503 ∨ status = 504 then
    { message := jsOrElse serverMessage
        "The server is temporarily unavailable. Please try again in a few moments."
      type := ErrorType.network }
  else
    { message := jsOrElse serverMessage
        ("An unknown error occurred (Status: " ++ toString status ++ ").")
      type := ErrorType.network }

/-- The status-to-category mapping as the specification states it:
401 and 403 map to the credential category, 400 to the generic category,
and every other status to the network category. -/
def specErrorCategory (status : Nat) : ErrorType :=
  if status = 401 ∨ status = 403 then ErrorType.api_key
  else if status = 400 then ErrorType.generic
  else ErrorType.network

/-! ## Request encoder (`buildFormData`, apiClient.ts lines 274-287) -/

/-- A JavaScript value as it may appear in the `Record<String, any>` bodies
passed to the client: primitives, `null`/`undefined`, plain objects, arrays,
and `File` instances (a name, a content type, and byte content). -/
inductive Value where
  | str (s : String)
  | num (n : Int)
  | boolean (b : Bool)
  | null
  | undefined
  | obj (fields : List (String × Value))
  | arr (elems : List Value)
  | file (name : String) (contentType : String) (content : List Nat)

/-- The test `value === undefined || value === null`, the values `buildFormData`
filters out. -/
def isNullish : Value → Bool
  | Value.null => true
  | Value.undefined => true
  | _ => false

/-- The test `value === undefined`, as tested inside `JSON.stringify`. -/
def isUndef : Value → Bool
  | Value.undefined => true
  | _ => false

/-- The test `typeof value === 'object'` for the values of the model: true for
`null`, plain objects, arrays and `File` instances. -/
def typeofIsObject : Value → Bool
  | Value.null => true
  | Value.obj _ => true
  | Value.arr _ => true
  | Value.file _ _ _ => true
  | _ => false

/-- The test `value instanceof File`. -/
def isFile : Value → Bool
  | Value.file _ _ _ => true
  | _ => false

/-- Escape one character for a JSON string literal (quote and backslash;
other characters pass through, which suffices for this model). -/
def jsonEscapeChar (c : Char) : String :=
  if c = '"' then "\\\""
  else if c = '\\' then "\\\\"
  else String.singleton c

/-- A JSON string literal. -/
def jsonQuote (s : String) : String :=
  "\"" ++ String.join (s.toList.map jsonEscapeChar) ++ "\""

mutual

/-- The builtin `JSON.stringify` on the values of the model.  `undefined` at the top
level has no JSON representation (it never reaches `stringify` in the
client, which only serializes plain objects and arrays); a `File` has no
enumerable own properties and serializes as an empty object. -/
def stringify : Value → String
  | Value.str s => jsonQuote s
  | Value.num n => toString n
  | Value.boolean b => cond b "true" "false"
  | Value.null => "null"
  | Value.undefined => "undefined"
  | Value.obj fields => "\x7b" ++ stringifyFields fields ++ "\x7d"
  | Value.arr elems => "[" ++ stringifyElems elems ++ "]"
  | Value.file _ _ _ => "\x7b\x7d"

/-- The comma-separated members of a serialized object; `undefined`-valued
fields are dropped, as `JSON.stringify` drops them. -/
def stringifyFields : List (String × Value) → String
  | [] => ""
  | (_, Value.undefined) :: rest => stringifyFields rest
  | (k, v) :: rest =>
    let head := jsonQuote k ++ ":" ++ stringify v
    match rest.filter (fun p => !(isUndef p.2)) with
    | [] => head
    | _ => head ++ "," ++ stringifyFields rest

/-- The comma-separated elements of a serialized array; `undefined`
elements serialize as `null`, as `JSON.stringify` renders them. -/
def stringifyElems : List Value → String
  | [] => ""
  | [v] => stringifyOneElem v
  | v :: rest => stringifyOneElem v ++ "," ++ stringifyElems rest

/-- One array element under `JSON.stringify`. -/
def stringifyOneElem : Value → String
  | Value.undefined => "null"
  | v => stringify v

end

/-- The string coercion `String(value)` that `FormData.append` applies to a
non-`Blob`, non-string second argument (only primitives reach this branch in
`buildFormData`). -/
def toDOMString : Value → String
  | Value.str s => s
  | Value.num n => toString n
  | Value.boolean b => cond b "true" "false"
  | Value.null => "null"
  | Value.undefined => "undefined"
  | Value.obj fields => stringify (Value.obj fields)
  | Value.arr elems => stringify (Value.arr elems)
  | Value.file _ _ _ => ""

/-- One entry of a `FormData` body: a text part or a binary file part
carrying the file's original name and content type. -/
inductive Part where
  | text (name : String) (value : String)
  | filePart (name : String) (fileName : String) (contentType : String) (content : List Nat)
deriving DecidableEq, Repr

/-- The field name a part was appended under. -/
def partName : Part → String
  | Part.text name _ => name
  | Part.filePart name _ _ _ => name

/-- The call `formData.append(key, value)` for a value that is not filtered and not
serialized to JSON: a `File` becomes a binary part, anything else a text
part via the `String(value)` coercion. -/
def formAppend (key : String) : Value → Part
  | Value.file name contentType content => Part.filePart key name contentType content
  | v => Part.text key (toDOMString v)

/-- The encoder `buildFormData` (apiClient.ts lines 274-287): iterate the fields in
order; skip `undefined` and `null` values; serialize non-`File` objects to
JSON text; append everything else directly. -/
def buildFormData : List (String × Value) → List Part
  | [] => []
  | (key, value) :: rest =>
    if isNullish value then
      buildFormData rest
    else if typeofIsObject value && !(isFile value) then
      Part.text key (stringify value) :: buildFormData rest
    else
      formAppend key value :: buildFormData rest

/-! ## Unary request executor (`request`, apiClient.ts lines 249-272) -/

/-- The observable contents of a fetch `Response` as the client inspects
them: the status, the status text, the JSON parse of the body when read as
an error body, the body read as text for the success path, and the raw
byte stream (`response.body`), `none` when the response carries no body. -/
structure Response where
  status : Nat
  statusText : String
  errorParsed : ErrorBodyParse
  rawBody : String
  body : Option (List (List Nat))

/-- The outcome of one unary request: a typed failure, the explicit
`null` returned for 204 No Content, or a parsed body. -/
inductive UnaryOutcome (β : Type) where
  | failure (e : AIError)
  | noContent
  | parsed (b : β)
deriving DecidableEq, Repr

/-- The executor `request` (apiClient.ts lines 249-272), from the point the response
arrives: throw `createApiError` on a non-ok status, return `null` on 204,
otherwise parse the body as JSON.  The JSON parse of the success body is a
parameter, so that what the executor does is stated independently of any
concrete parser. -/
def request {β : Type} (parseJson : String → β) (r : Response) : UnaryOutcome β :=
  if !(respOk r.status) then
    UnaryOutcome.failure (createApiError r.status r.errorParsed r.statusText)
  else if r.status = 204 then
    UnaryOutcome.noContent
  else
    UnaryOutcome.parsed (parseJson r.rawBody)

/-! ## Incremental UTF-8 decoding (`TextDecoderStream`, apiClient.ts lines 311-323)

The stream executor pipes the byte stream through `TextDecoderStream`,
the WHATWG streaming UTF-8 decoder.  The decoder is embedded below as the
byte-at-a-time state machine of the WHATWG Encoding standard: the state
carries the partially assembled code point, how many continuation bytes
are still needed and seen, and the admissible range of the next byte;
output is a sequence of Unicode code points. -/

/-- The state of the WHATWG UTF-8 decoder. -/
structure DecoderState where
  codePoint : Nat
  bytesNeeded : Nat
  bytesSeen : Nat
  lowerBoundary : Nat
  upperBoundary : Nat
deriving DecidableEq, Repr

/-- The initial decoder state. -/
def initDecoder : DecoderState :=
  { codePoint := 0, bytesNeeded := 0, bytesSeen := 0
    lowerBoundary := 0x80, upperBoundary := 0xBF }

/-- U+FFFD REPLACEMENT CHARACTER, emitted for encoding errors. -/
def replacementChar : Nat := 0xFFFD

/-- Handle one byte in the initial state (no continuation bytes pending):
ASCII is emitted directly, lead bytes set up the multi-byte state, and an
invalid byte yields a replacement character. -/
def leadByte (b : Nat) : DecoderState × List Nat :=
  if b ≤ 0x7F then
    (initDecoder, [b])
  else if 0xC2 ≤ b && b ≤ 0xDF then
    ({ initDecoder with bytesNeeded := 1, codePoint := b &&& 0x1F }, [])
  else if 0xE0 ≤ b && b ≤ 0xEF then
    ({ codePoint := b &&& 0xF, bytesNeeded := 2, bytesSeen := 0
       lowerBoundary := if b = 0xE0 then 0xA0 else 0x80
       upperBoundary := if b = 0xED then 0x9F else 0xBF }, [])
  else if 0xF0 ≤ b && b ≤ 0xF4 then
    ({ codePoint := b &&& 0x7, bytesNeeded := 3, bytesSeen := 0
       lowerBoundary := if b = 0xF0 then 0x90 else 0x80
       upperBoundary := if b = 0xF4 then 0x8F else 0xBF }, [])
  else
    (initDecoder, [replacementChar])

/-- One step of the WHATWG UTF-8 decoder: consume one byte, produce the
next state and the code points emitted.  A continuation byte outside the
admissible range emits a replacement character and is then reprocessed in
the initial state, exactly as the standard prepends it back to the
stream. -/
def stepByte (s : DecoderState) (b : Nat) : DecoderState × List Nat :=
  if s.bytesNeeded = 0 then
    leadByte b
  else if s.lowerBoundary ≤ b && b ≤ s.upperBoundary then
    let cp := (s.codePoint <<< 6) ||| (b &&& 0x3F)
    let seen := s.bytesSeen + 1
    if seen = s.bytesNeeded then
      (initDecoder, [cp])
    else
      ({ codePoint := cp, bytesNeeded := s.bytesNeeded, bytesSeen := seen
         lowerBoundary := 0x80, upperBoundary := 0xBF }, [])
  else
    let (s2, out) := leadByte b
    (s2, replacementChar :: out)

/-- Run the decoder over one network fragment, byte by byte. -/
def processChunk : DecoderState → List Nat → DecoderState × List Nat
  | s, [] => (s, [])
  | s, b :: rest =>
    let step := stepByte s b
    let restRes := processChunk step.1 rest
    (restRes.1, step.2 ++ restRes.2)

/-- End-of-stream flush: a dangling incomplete sequence yields one
replacement character. -/
def flushDecoder (s : DecoderState) : List Nat :=
  if s.bytesNeeded = 0 then [] else [replacementChar]

/-- Decode a sequence of network fragments with one shared decoder state,
producing one text fragment (as code points) per network fragment, plus
the flush output at end-of-stream. -/
def decodeFragmentsFrom : DecoderState → List (List Nat) → List (List Nat)
  | s, [] => [flushDecoder s]
  | s, c :: rest =>
    let res := processChunk s c
    res.2 :: decodeFragmentsFrom res.1 rest

/-- The text fragments the `TextDecoderStream` pipeline yields for a
chunked byte stream. -/
def decodeFragments (chunks : List (List Nat)) : List (List Nat) :=
  decodeFragmentsFrom initDecoder chunks

/-! ## Streaming request executor (`stream`, apiClient.ts lines 293-324) -/

/-- What a run of the `stream` generator yields to its consumer: either a
failure thrown after the fragments yielded so far, or normal completion
with all fragments (each a sequence of code points). -/
inductive StreamResult where
  | failed (yielded : List (List Nat)) (e : AIError)
  | completed (yielded : List (List Nat))
deriving DecidableEq, Repr

/-- The generator `stream` (apiClient.ts lines 293-324), from the point the response
arrives: if the status is non-ok or the response carries no body, throw
`createApiError` before yielding anything; otherwise yield every decoded
text fragment of the byte stream. -/
def streamRun (r : Response) : StreamResult :=
  if !(respOk r.status) || r.body.isNone then
    StreamResult.failed [] (createApiError r.status r.errorParsed r.statusText)
  else
    StreamResult.completed (decodeFragments (r.body.getD []))

/-! ## Progress-tracked upload executor (`postWithProgress`, apiClient.ts lines 329-414) -/

/-- An `XMLHttpRequest` upload progress event: whether the total size is
computable, the bytes transmitted so far, and the total bytes. -/
structure ProgressEvent where
  lengthComputable : Bool
  loaded : Nat
  total : Nat
deriving DecidableEq, Repr

/-- The `xhr.upload.onprogress` handler (apiClient.ts lines 404-409):
invoke the callback with `(loaded / total) * 100` when the length is
computable, otherwise do not invoke it at all.  The division is modelled
exactly, over the rationals. -/
def uploadOnProgress (e : ProgressEvent) : Option ℚ :=
  if e.lengthComputable then
    some (((e.loaded : ℚ) / (e.total : ℚ)) * 100)
  else
    none

/-- A `DOMException` as `postWithProgress` rejects with on abort:
constructed as `DOMException(message, name)`. -/
structure DOMExceptionModel where
  message : String
  name : String
deriving DecidableEq, Repr

/-- The settled state of the `postWithProgress` promise. -/
inductive UploadOutcome where
  | resolved (text : String)
  | rejected (e : AIError)
  | rejectedDom (e : DOMExceptionModel)
deriving DecidableEq, Repr

/-- The terminal event that settles an upload: `onload` with the final
status, parsed error body and status text and response text; `onerror`;
or `onabort`. -/
inductive XhrEvent where
  | onload (status : Nat) (parsed : ErrorBodyParse) (statusText : String) (responseText : String)
  | onerror
  | onabort
deriving DecidableEq, Repr

/-- The status switch inlined in `xhr.onload` (apiClient.ts lines 360-387);
it duplicates the `createApiError` mapping for the XHR transport, with the
parse of `xhr.responseText` in place of `response.json()`. -/
def xhrStatusError (status : Nat) (parsed : ErrorBodyParse) (statusText : String) : AIError :=
  let serverMessage := resolveServerMessage parsed statusText
  if status = 400 then
    { message := jsOrElse serverMessage "The request was invalid. Please check your input."
      type := ErrorType.generic }
  else if status = 401 then
    { message := jsOrElse serverMessage "Authentication failed. Please log in again."
      type := ErrorType.api_key }
  else if status = 403 then
    { message := jsOrElse serverMessage "You don\x27t have permission to perform this action."
      type := ErrorType.api_key }
  else if status = 404 then
    { message := jsOrElse serverMessage "The requested resource was not found."
      type := ErrorType.network }
  else if status = 500 then
    { message := jsOrElse serverMessage
        "An unexpected error occurred on the server. Please try again later."
      type := ErrorType.network }
  else if status = 502 ∨ status = 503 ∨ status = 504 then
    { message := jsOrElse serverMessage
        "The server is temporarily unavailable. Please try again in a few moments."
      type := ErrorType.network }
  else
    { message := jsOrElse serverMessage
        ("An unknown error occurred (Status: " ++ toString status ++ ").")
      type := ErrorType.network }

/-- How `postWithProgress` settles on each terminal event (apiClient.ts
lines 346-398): a 2xx `onload` resolves with the response text, any other
`onload` rejects with the status-mapped `AIError`, `onerror` rejects with
a network `AIError`, and `onabort` rejects with
`DOMException('Request aborted by user', 'AbortError')`. -/
def postWithProgressSettle : XhrEvent → UploadOutcome
  | XhrEvent.onload status parsed statusText responseText =>
    if 200 ≤ status && status < 300 then
      UploadOutcome.resolved responseText
    else
      UploadOutcome.rejected (xhrStatusError status parsed statusText)
  | XhrEvent.onerror =>
    UploadOutcome.rejected { message := "Network request failed.", type := ErrorType.network }
  | XhrEvent.onabort =>
    UploadOutcome.rejectedDom { message := "Request aborted by user", name := "AbortError" }

/-- The transport-level state of an in-flight XHR upload: bytes sent so
far, the total, and whether the transfer has been terminated. -/
structure XhrTransfer where
  sentBytes : Nat
  totalBytes : Nat
  halted : Bool
deriving DecidableEq, Repr

/-- The call `xhr.abort()` as the platform defines it: the transfer is terminated
and transmits no further bytes. -/
def xhrAbort (t : XhrTransfer) : XhrTransfer :=
  { t with halted := true }

/-- The platform transmits further bytes only on a transfer that has not
been terminated. -/
def transmit (t : XhrTransfer) (n : Nat) : XhrTransfer :=
  if t.halted then t else { t with sentBytes := t.sentBytes + n }

/-- The abort listener registered on the cancellation signal
(apiClient.ts lines 400-402): triggering the signal calls `xhr.abort()`,
which terminates the transfer and fires `onabort`. -/
def onSignalAbort (t : XhrTransfer) : XhrTransfer × XhrEvent :=
  (xhrAbort t, XhrEvent.onabort)

/-! ## Session token lifecycle (`authService` and the bearer header) -/

/-- The slice of `localStorage` the client touches: the single cell under
the fixed key `authToken`. -/
structure Storage where
  authToken : Option String
deriving DecidableEq, Repr

/-- The call `localStorage.setItem(TOKEN_KEY, v)`. -/
def setItem (v : String) : Storage → Storage :=
  fun _ => { authToken := some v }

/-- The call `localStorage.removeItem(TOKEN_KEY)`. -/
def removeItem : Storage → Storage :=
  fun _ => { authToken := none }

/-- The call `localStorage.getItem(TOKEN_KEY)`. -/
def getItem (st : Storage) : Option String :=
  st.authToken

/-- The `Authorization` header `request`, `stream` and `postWithProgress`
all attach (apiClient.ts lines 253-255): `Bearer` plus the stored token
when one is present, no header otherwise. -/
def authHeader (st : Storage) : Option String :=
  match getItem st with
  | some token => some ("Bearer " ++ token)
  | none => none

/-- A user document, reduced to its identity (its other fields play no
role in the client logic under verification). -/
structure User where
  id : String
deriving DecidableEq, Repr

/-- The parsed body of a login response: `token` and `user` fields, each
possibly absent. -/
structure LoginResponse where
  token : Option String
  user : Option User
deriving DecidableEq, Repr

/-- The message of the error `login` throws on a bad response shape. -/
def loginFailMsg : String := "Login failed: Invalid response from server."

/-- The operation `authService.login` (apiClient.ts lines 468-475), from the point the
login response body is parsed: `if (token && user)` store the token and
return the user, else throw.  JavaScript truthiness makes an absent or
empty-string token falsy and any user object truthy. -/
def login (st : Storage) (resp : LoginResponse) : Storage × Except String User :=
  match resp.token, resp.user with
  | some t, some u =>
    if t = "" then (st, Except.error loginFailMsg)
    else (setItem t st, Except.ok u)
  | _, _ => (st, Except.error loginFailMsg)

/-- The operation `authService.logout` (apiClient.ts lines 477-479). -/
def logout (st : Storage) : Storage :=
  removeItem st

/-- The operation `authService.getCurrentUser` (apiClient.ts lines 481-493): with no
stored token return `null` at once; otherwise contact the server for the
profile, and on any failure remove the token and return `null`.  The
result records the new storage, the returned user, and whether the server
was contacted. -/
def getCurrentUser (st : Storage) (server : Except AIError User) : Storage × Option User × Bool :=
  match getItem st with
  | none => (st, none, false)
  | some _ =>
    match server with
    | Except.ok u => (st, some u, true)
    | Except.error _ => (removeItem st, none, true)

/-! ## Theorems -/

/-- C1: For every failed HTTP response, the error category assigned to the
typed error is determined totally by the status code: 401 and 403 map to
the credential category, 400 maps to the generic category, and every other
non-success status maps to the network category. -/
theorem createApiError_category_total (status : Nat) (parsed : ErrorBodyParse)
    (statusText : String) (_h : respOk status = false) :
    (createApiError status parsed statusText).type = specErrorCategory status
    ∧ ∀ (parsed2 : ErrorBodyParse) (statusText2 : String),
        (createApiError status parsed statusText).type
          = (createApiError status parsed2 statusText2).type := by
  constructor
  · unfold createApiError specErrorCategory
    split_ifs <;> simp_all
  · intro parsed2 statusText2
    unfold createApiError
    split_ifs <;> rfl

/-- Witness for C1: a 404 response maps to the category the specification
assigns it. -/
theorem createApiError_category_total_witness :
    (createApiError 404 none "Not Found").type = specErrorCategory 404 :=
  (createApiError_category_total 404 none "Not Found" (by decide)).1

/-- C6: For every unary request whose response has status 204, the executor
returns the explicit no-content result, and does so independently of the
body parser — the body is never parsed. -/
theorem request_204_no_content {β : Type} (parse1 parse2 : String → β)
    (r : Response) (h : r.status = 204) :
    request parse1 r = UnaryOutcome.noContent
    ∧ request parse1 r = request parse2 r := by
  have hok : respOk 204 = true := by decide
  constructor <;> simp [request, h, hok]

/-- Witness for C6: a concrete 204 response yields the no-content result. -/
theorem request_204_no_content_witness :
    request (fun _ => (0 : Nat)) ⟨204, "No Content", none, "", none⟩
      = UnaryOutcome.noContent :=
  (request_204_no_content (fun _ => (0 : Nat)) (fun _ => (1 : Nat))
    ⟨204, "No Content", none, "", none⟩ rfl).1

/-- C2: For every streaming request whose initial response has a non-success
status or carries no body, the stream fails before yielding any text
fragment, with the very error `createApiError` builds — the same
status-to-category mapping the unary request executor fails with on the
same response. -/
theorem stream_fails_before_yield (r : Response)
    (h : respOk r.status = false ∨ r.body = none) :
    streamRun r
      = StreamResult.failed [] (createApiError r.status r.errorParsed r.statusText)
    ∧ (respOk r.status = false →
        ∀ (β : Type) (parseJson : String → β),
          request parseJson r
            = UnaryOutcome.failure (createApiError r.status r.errorParsed r.statusText)) := by
  have hcond : (!(respOk r.status) || r.body.isNone) = true := by
    rcases h with h | h
    · simp [h]
    · simp [h]
  refine ⟨by simp [streamRun, hcond], ?_⟩
  intro hok β parseJson
  simp [request, hok]

/-- Witness for C2: a concrete 500 response with no body makes the stream
fail before yielding, with the mapped typed error. -/
theorem stream_fails_before_yield_witness :
    streamRun ⟨500, "Server Error", none, "", none⟩
      = StreamResult.failed [] (createApiError 500 none "Server Error") :=
  (stream_fails_before_yield ⟨500, "Server Error", none, "", none⟩
    (Or.inl (by decide))).1

/-- The decoder consumes its input byte by byte, so running it over a
concatenation is running it over the pieces in sequence, concatenating the
outputs. -/
theorem processChunk_append (s : DecoderState) (a b : List Nat) :
    processChunk s (a ++ b)
      = ((processChunk (processChunk s a).1 b).1,
         (processChunk s a).2 ++ (processChunk (processChunk s a).1 b).2) := by
  induction a generalizing s with
  | nil => simp [processChunk]
  | cons x xs ih => simp [processChunk, ih, List.append_assoc]

/-- C5: For every byte stream and every partition of it into two fragments
(including partitions splitting a multi-byte character), the concatenation
of the texts the stateful incremental decoder produces on the two
fragments equals the text produced by decoding the whole stream as a
single fragment. -/
theorem decode_split_eq_decode_whole (a b : List Nat) :
    (decodeFragments [a, b]).flatten = (decodeFragments [a ++ b]).flatten := by
  have h := processChunk_append initDecoder a b
  simp [decodeFragments, decodeFragmentsFrom, h, List.append_assoc]

/-- C3: For every progress-tracked upload event with a computable total of
N bytes and k bytes transmitted, the progress callback is invoked with
exactly 100*k/N; when the total size is not computable, the callback is
not invoked. -/
theorem upload_progress_exact (e : ProgressEvent) :
    (e.lengthComputable = true →
       uploadOnProgress e = some (100 * (e.loaded : ℚ) / (e.total : ℚ)))
    ∧ (e.lengthComputable = false → uploadOnProgress e = none) := by
  constructor
  · intro h
    simp only [uploadOnProgress, h, if_true]
    congr 1
    ring
  · intro h
    simp [uploadOnProgress, h]

/-- Witness for C3: 50 of 200 bytes transmitted reports exactly 25 percent,
and a non-computable total reports nothing. -/
theorem upload_progress_exact_witness :
    uploadOnProgress ⟨true, 50, 200⟩ = some (100 * ((50 : Nat) : ℚ) / ((200 : Nat) : ℚ))
    ∧ uploadOnProgress ⟨false, 50, 0⟩ = none :=
  ⟨(upload_progress_exact ⟨true, 50, 200⟩).1 rfl,
   (upload_progress_exact ⟨false, 50, 0⟩).2 rfl⟩

/-- C4: Triggering the cancellation signal aborts the transfer: the
caller-visible outcome is the distinguished aborted-by-user rejection,
that outcome is distinct from every typed-error rejection, and the halted
transfer transmits no further bytes. -/
theorem upload_abort_outcome (t : XhrTransfer) (n : Nat) (e : AIError) :
    postWithProgressSettle (onSignalAbort t).2
        = UploadOutcome.rejectedDom ⟨"Request aborted by user", "AbortError"⟩
    ∧ postWithProgressSettle (onSignalAbort t).2 ≠ UploadOutcome.rejected e
    ∧ (transmit (onSignalAbort t).1 n).sentBytes = t.sentBytes := by
  refine ⟨rfl, by simp [onSignalAbort, postWithProgressSettle], ?_⟩
  simp [onSignalAbort, xhrAbort, transmit]

/-- Witness for C4: a concrete aborted transfer is not any network-error
rejection, and its byte count stays where the abort left it. -/
theorem upload_abort_outcome_witness :
    postWithProgressSettle (onSignalAbort ⟨10, 100, false⟩).2
        ≠ UploadOutcome.rejected ⟨"Network request failed.", ErrorType.network⟩
    ∧ (transmit (onSignalAbort ⟨10, 100, false⟩).1 7).sentBytes = 10 :=
  ⟨(upload_abort_outcome ⟨10, 100, false⟩ 7
      ⟨"Network request failed.", ErrorType.network⟩).2.1,
   (upload_abort_outcome ⟨10, 100, false⟩ 7
      ⟨"Network request failed.", ErrorType.network⟩).2.2⟩

/-- C7: For every field mapping passed to the request encoder, every field
whose value is null or undefined is omitted entirely from the encoded
multipart body: no part with that field's name appears, not even an empty
one. -/
theorem buildFormData_omits_nullish (body : List (String × Value)) (k : String)
    (h : ∀ v, (k, v) ∈ body → v = Value.null ∨ v = Value.undefined) :
    ∀ p ∈ buildFormData body, partName p ≠ k := by
  induction body with
  | nil => simp [buildFormData]
  | cons kv rest ih =>
    obtain ⟨key, value⟩ := kv
    have hrest : ∀ v, (k, v) ∈ rest → v = Value.null ∨ v = Value.undefined :=
      fun v hv => h v (List.mem_cons_of_mem _ hv)
    by_cases hk : key = k
    · subst hk
      have hval : value = Value.null ∨ value = Value.undefined :=
        h value (List.mem_cons_self _ _)
      have hnull : isNullish value = true := by
        rcases hval with hval | hval <;> simp [hval, isNullish]
      simp only [buildFormData, hnull, if_true]
      exact ih hrest
    · intro p hp
      simp only [buildFormData] at hp
      split_ifs at hp with h1 h2
      · exact ih hrest p hp
      · rcases List.mem_cons.mp hp with hp | hp
        · simp [hp, partName, hk]
        · exact ih hrest p hp
      · rcases List.mem_cons.mp hp with hp | hp
        · cases value <;> simp [hp, formAppend, partName, hk]
        · exact ih hrest p hp

/-- Witness for C7: a mapping with one null field and one string field
encodes to a single part, whose name is not the null field's name. -/
theorem buildFormData_omits_nullish_witness :
    buildFormData [("a", Value.null), ("b", Value.str "x")] = [Part.text "b" "x"]
    ∧ partName (Part.text "b" "x") ≠ "a" := by
  refine ⟨rfl, ?_⟩
  refine buildFormData_omits_nullish [("a", Value.null), ("b", Value.str "x")] "a"
    ?_ (Part.text "b" "x") ?_
  · intro v hv
    rcases List.mem_cons.mp hv with hv | hv
    · left
      exact ((Prod.mk.injEq _ _ _ _).mp hv.symm).2.symm
    · rcases List.mem_cons.mp hv with hv | hv
      · exact absurd ((Prod.mk.injEq _ _ _ _).mp hv).1 (by decide)
      · simp at hv
  · rw [show buildFormData [("a", Value.null), ("b", Value.str "x")]
        = [Part.text "b" "x"] from rfl]
    exact List.mem_singleton.mpr rfl

/-- C8: For every field mapping encoded as a multipart body, primitive and
string fields become text parts, object- and array-valued fields are
serialized to JSON text before being added as parts, and file-valued
fields are added as binary parts with their original name and content type
preserved. -/
theorem buildFormData_part_shapes (key : String) (rest : List (String × Value)) :
    (∀ s, buildFormData ((key, Value.str s) :: rest)
        = Part.text key s :: buildFormData rest)
    ∧ (∀ n, buildFormData ((key, Value.num n) :: rest)
        = Part.text key (toString n) :: buildFormData rest)
    ∧ (∀ b, buildFormData ((key, Value.boolean b) :: rest)
        = Part.text key (cond b "true" "false") :: buildFormData rest)
    ∧ (∀ fields, buildFormData ((key, Value.obj fields) :: rest)
        = Part.text key (stringify (Value.obj fields)) :: buildFormData rest)
    ∧ (∀ elems, buildFormData ((key, Value.arr elems) :: rest)
        = Part.text key (stringify (Value.arr elems)) :: buildFormData rest)
    ∧ (∀ name contentType content,
        buildFormData ((key, Value.file name contentType content) :: rest)
          = Part.filePart key name contentType content :: buildFormData rest) :=
  ⟨fun _ => rfl, fun _ => rfl, fun _ => rfl, fun _ => rfl, fun _ => rfl,
   fun _ _ _ => rfl⟩

/-- C9: The session token is created in client-side storage on successful
login, read and attached as a bearer credential on requests, deleted on
logout and when the profile request fails (in particular with an
authentication-related error), and with no stored token the current-user
fetch returns null locally without contacting the server. -/
theorem token_lifecycle (st : Storage) (t : String) (u : User) (e : AIError)
    (server : Except AIError User) :
    (t ≠ "" → (login st ⟨some t, some u⟩).1 = ⟨some t⟩)
    ∧ (getItem st = some t → authHeader st = some ("Bearer " ++ t))
    ∧ (logout st).authToken = none
    ∧ (e.type = ErrorType.api_key →
        ((getCurrentUser st (Except.error e)).1).authToken = none)
    ∧ (getItem st = none → getCurrentUser st server = (st, none, false)) := by
  refine ⟨?_, ?_, rfl, ?_, ?_⟩
  · intro ht
    simp [login, ht, setItem]
  · intro hg
    simp [authHeader, hg]
  · intro _
    cases hst : st.authToken with
    | none => simp [getCurrentUser, getItem, hst]
    | some tok => simp [getCurrentUser, getItem, hst, removeItem]
  · intro hg
    simp [getCurrentUser, getItem] at hg ⊢
    simp [hg]

/-- Witness for C9: a concrete successful login stores the token, the
stored token is attached as a bearer header, and an empty storage answers
the current-user fetch locally. -/
theorem token_lifecycle_witness :
    (login ⟨none⟩ ⟨some "t1", some ⟨"1"⟩⟩).1 = ⟨some "t1"⟩
    ∧ authHeader ⟨some "t1"⟩ = some ("Bearer " ++ "t1")
    ∧ getCurrentUser ⟨none⟩ (Except.ok ⟨"1"⟩) = (⟨none⟩, none, false) :=
  ⟨(token_lifecycle ⟨none⟩ "t1" ⟨"1"⟩ ⟨"x", ErrorType.api_key⟩ (Except.ok ⟨"1"⟩)).1
      (by decide),
   (token_lifecycle ⟨some "t1"⟩ "t1" ⟨"1"⟩ ⟨"x", ErrorType.api_key⟩
      (Except.ok ⟨"1"⟩)).2.1 rfl,
   (token_lifecycle ⟨none⟩ "t1" ⟨"1"⟩ ⟨"x", ErrorType.api_key⟩
      (Except.ok ⟨"1"⟩)).2.2.2.2 rfl⟩

/-- C10: For every login call whose server response does not contain both a
token and a user, the login operation throws and the client-side token
storage is left unchanged; the token is stored only when both are
present. -/
theorem login_requires_token_and_user (st : Storage) (resp : LoginResponse) :
    ((resp.token = none ∨ resp.user = none) →
        login st resp = (st, Except.error loginFailMsg))
    ∧ (∀ u, (login st resp).2 = Except.ok u →
        ∃ t, resp.token = some t ∧ t ≠ "" ∧ resp.user = some u
             ∧ (login st resp).1 = ⟨some t⟩) := by
  obtain ⟨tok, usr⟩ := resp
  constructor
  · rintro (h | h)
    · simp only at h
      subst h
      cases usr <;> simp [login]
    · simp only at h
      subst h
      cases tok <;> simp [login]
  · intro u hu
    cases tok with
    | none => simp [login] at hu
    | some t =>
      cases usr with
      | none => simp [login] at hu
      | some u0 =>
        by_cases ht : t = ""
        · simp [login, ht] at hu
        · refine ⟨t, rfl, ht, ?_, ?_⟩ <;>
            simp [login, ht] at hu ⊢ <;> simp [hu, setItem]

/-- Witness for C10: a response with a token but no user leaves a concrete
non-empty storage unchanged and produces the login failure. -/
theorem login_requires_token_and_user_witness :
    login ⟨some "old"⟩ ⟨some "t", none⟩ = (⟨some "old"⟩, Except.error loginFailMsg) :=
  (login_requires_token_and_user ⟨some "old"⟩ ⟨some "t", none⟩).1 (Or.inr rfl)

end ApiClient
